import Mathlib

/-!
# Verification of the RBI Circular Checker pipeline

A shallow embedding, in Lean 4, of the decision logic of `src/App.py`
(single-file batch workflow that discovers the latest RBI circular,
resolves its document artifact, and processes it).

Modelling conventions:
* Python strings are Lean `String`s; the string primitives the code uses
  (`str.strip`, `str.lower`, the `in` substring test, `str.endswith`,
  `str.split`) are re-implemented below over `List Char` in their ASCII
  range, which covers every string the program manipulates.
* Network and browser effects are oracles: a header-only request outcome
  is an `Option HttpResponse` (`none` = raised exception), URL validation
  inside the resolver is a function `String → Bool`, rendered pages are
  explicit data.
* Fallible steps return `Option`; the orchestrator `main` is a pure
  function from an environment of step outcomes to a final persisted
  state plus the list of externally visible actions it performed.
-/

namespace RBI

/-! ## Python string primitives (ASCII range) -/

/-- Characters stripped by Python's `str.strip()` with no argument
(ASCII whitespace: space, tab, newline, carriage return, vertical tab,
form feed). -/
def pyWhitespace (c : Char) : Bool :=
  c == ' ' || c == '\t' || c == '\n' || c == '\r' || c == '\x0b' || c == '\x0c'

/-- Python `s.strip()`: drop leading and trailing whitespace. -/
def pythonStrip (s : String) : String :=
  String.mk (((s.data.dropWhile pyWhitespace).reverse.dropWhile pyWhitespace).reverse)

/-- `beginsWithChars s p`: the character list `s` starts with `p`. -/
def beginsWithChars : List Char → List Char → Bool
  | _, [] => true
  | [], _ :: _ => false
  | a :: as, b :: bs => a == b && beginsWithChars as bs

/-- `hasSubChars s p`: `p` occurs contiguously inside `s`
(Python's `p in s` for strings). -/
def hasSubChars : List Char → List Char → Bool
  | [], p => p.isEmpty
  | a :: as, p => beginsWithChars (a :: as) p || hasSubChars as p

/-- Python `pat in s` on strings. -/
def strHasSub (s pat : String) : Bool :=
  hasSubChars s.data pat.data

/-- Python `s.endswith(suf)`. -/
def strEndsWith (s suf : String) : Bool :=
  beginsWithChars s.data.reverse suf.data.reverse

/-- Python `s.lower()` (ASCII range). -/
def strToLower (s : String) : String :=
  String.mk (s.data.map Char.toLower)

/-- Python truthiness of an optional string: `None` and `''` are falsy. -/
def optTruthy : Option String → Bool
  | none => false
  | some s => !(s == "")

theorem beginsWithChars_iff (p s : List Char) :
    beginsWithChars s p = true ↔ ∃ t, s = p ++ t := by
  induction p generalizing s with
  | nil => simp [beginsWithChars]
  | cons b bs ih =>
    cases s with
    | nil => simp [beginsWithChars]
    | cons a as =>
      simp [beginsWithChars, ih, and_assoc, eq_comm (a := a) (b := b)]

theorem hasSubChars_iff (p s : List Char) :
    hasSubChars s p = true ↔ ∃ l r, s = l ++ (p ++ r) := by
  induction s with
  | nil =>
    cases p <;> simp [hasSubChars, List.isEmpty]
  | cons a as ih =>
    simp only [hasSubChars, Bool.or_eq_true, beginsWithChars_iff, ih]
    constructor
    · rintro (⟨t, ht⟩ | ⟨l, r, hl⟩)
      · exact ⟨[], t, by simpa using ht⟩
      · exact ⟨a :: l, r, by simp [hl]⟩
    · rintro ⟨l, r, hl⟩
      cases l with
      | nil => exact Or.inl ⟨r, by simpa using hl⟩
      | cons x xs =>
        simp only [List.cons_append, List.cons.injEq] at hl
        exact Or.inr ⟨xs, r, hl.2⟩

/-- Substring containment propagates to any contiguous part of the
pattern: if `s` contains `pre ++ pat`, it contains `pat`. -/
theorem strHasSub_of_append (s : String) (pre pat : List Char)
    (h : hasSubChars s.data (pre ++ pat) = true) :
    hasSubChars s.data pat = true := by
  rw [hasSubChars_iff] at h ⊢
  obtain ⟨l, r, hl⟩ := h
  exact ⟨l ++ pre, r, by simp [hl]⟩

end RBI

namespace RBI

/-! ## State tracker (`App.py` lines 545-557)

The persisted state is the content of `last_circular.txt`, modelled as
`Option String` (`none` = file absent). -/

/-- `get_last_circular_id` (lines 545-550): if the file exists, read it
and strip surrounding whitespace; otherwise `None`. -/
def get_last_circular_id (stateFile : Option String) : Option String :=
  match stateFile with
  | some content => some (pythonStrip content)
  | none => none

/-- `set_last_circular_id` (lines 553-557): overwrite the file wholesale
with the identifier, verbatim. -/
def set_last_circular_id (circular_id : String) (_stateFile : Option String) :
    Option String :=
  some circular_id

end RBI

namespace RBI

/-! ## Candidate URL validation (`check_pdf_url_exists`, lines 180-197) -/

/-- Outcome of the header-only request (`requests.head`, redirects
followed): final status code and the `content-type` header if present. -/
structure HttpResponse where
  status : Nat
  contentType : Option String
deriving DecidableEq

/-- `check_pdf_url_exists` (lines 180-197). The argument is the network
oracle's answer for the URL: `none` models any raised exception
(connection error, timeout), which the function turns into `False`;
otherwise the response is checked for status 200 and a `pdf` fragment in
the lower-cased `content-type` header (missing header defaults to `''`). -/
def check_pdf_url_exists (resp : Option HttpResponse) : Bool :=
  match resp with
  | none => false
  | some r =>
    let content_type := strToLower (r.contentType.getD "")
    r.status == 200 && strHasSub content_type "pdf"

end RBI

namespace RBI

/-! ## Index parser (`parse_circulars_table`, lines 144-168)

The rendered index markup is modelled structurally: a soup is a list of
tables (in document order), a table a list of rows, a row a list of
cells.  A cell records the first `<a>` element carrying an `href`
attribute inside it (`first_cell.find('a', href=True)`), if any, and its
own text content; `get_text(strip=True)` is applied by the parser. -/

structure Anchor where
  href : String
  text : String
deriving DecidableEq

structure Cell where
  anchor : Option Anchor
  text : String
deriving DecidableEq

/-- One parsed row, the dict built at lines 156-163.  The `'link'` key
(the live tag object) is redundant with `href`/`text` and is omitted. -/
structure ParsedCircular where
  href : String
  circular_number : String
  date : String
  department : String
  subject : String
deriving DecidableEq, Inhabited

/-- Body of the row loop (lines 150-164): a row yields a circular iff it
has at least four cells and the first cell's first link's `href`
contains the detail-page pattern.  The `len(cells) > k` guards on cells
1-3 are always true under the `len(cells) >= 4` test. -/
def parseRow (row : List Cell) : Option ParsedCircular :=
  match row with
  | c0 :: c1 :: c2 :: c3 :: _ =>
    match c0.anchor with
    | some link =>
      if strHasSub link.href "BS_CircularIndexDisplay.aspx?Id=" then
        some { href := link.href
             , circular_number := pythonStrip link.text
             , date := pythonStrip c1.text
             , department := pythonStrip c2.text
             , subject := pythonStrip c3.text }
      else none
    | none => none
  | _ => none

/-- `parse_circulars_table` (lines 144-168): iterate tables and rows in
document order, appending each successfully parsed row. -/
def parse_circulars_table : List (List (List Cell)) → List ParsedCircular
  | [] => []
  | t :: ts => t.filterMap parseRow ++ parse_circulars_table ts

/-- The structural prerequisites of a row (spec: "well-formed"). -/
def wellFormedRow (row : List Cell) : Bool :=
  match row with
  | c0 :: _ :: _ :: _ :: _ =>
    match c0.anchor with
    | some link => strHasSub link.href "BS_CircularIndexDisplay.aspx?Id="
    | none => false
  | _ => false

/-- The summary a well-formed row yields (junk on malformed rows). -/
def mkSummary (row : List Cell) : ParsedCircular :=
  match row with
  | c0 :: c1 :: c2 :: c3 :: _ =>
    match c0.anchor with
    | some link =>
      { href := link.href
      , circular_number := pythonStrip link.text
      , date := pythonStrip c1.text
      , department := pythonStrip c2.text
      , subject := pythonStrip c3.text }
    | none => default
  | _ => default

/-- All rows of the markup, tables concatenated in document order. -/
def allRows : List (List (List Cell)) → List (List Cell)
  | [] => []
  | t :: ts => t ++ allRows ts

theorem parseRow_eq (row : List Cell) :
    parseRow row = if wellFormedRow row then some (mkSummary row) else none := by
  match row with
  | [] => rfl
  | [_] => rfl
  | [_, _] => rfl
  | [_, _, _] => rfl
  | c0 :: c1 :: c2 :: c3 :: rest =>
    cases h : c0.anchor with
    | none => simp [parseRow, wellFormedRow, h]
    | some link =>
      by_cases hp : strHasSub link.href "BS_CircularIndexDisplay.aspx?Id=" = true <;>
        simp [parseRow, wellFormedRow, mkSummary, h, hp]

theorem filterMap_parseRow_eq (rows : List (List Cell)) :
    rows.filterMap parseRow = (rows.filter wellFormedRow).map mkSummary := by
  induction rows with
  | nil => rfl
  | cons r rs ih =>
    by_cases h : wellFormedRow r = true <;>
      simp [List.filterMap_cons, List.filter_cons, parseRow_eq, h, ih]

/-- Characterization of the parser: it returns exactly the summaries of
the well-formed rows, in document order. -/
theorem parse_characterization (tables : List (List (List Cell))) :
    parse_circulars_table tables =
      ((allRows tables).filter wellFormedRow).map mkSummary := by
  induction tables with
  | nil => rfl
  | cons t ts ih =>
    simp [parse_circulars_table, allRows, ih, filterMap_parseRow_eq,
      List.filter_append]

end RBI

namespace RBI

/-! ## Artifact filename sanitization (lines 104-105, 114-115, 368-369)

`re.sub(r'[^\w\-_.]', '_', circular_number)`: every character outside
the kept class (word characters, `-`, `_`, `.`) is replaced by `_`.
Python's `\w` is modelled over its ASCII range `[A-Za-z0-9_]`, which
covers the circular numbers the program handles. -/

/-- Python regex `\w`, ASCII range. -/
def pyWordChar (c : Char) : Bool :=
  c.isAlphanum || c == '_'

/-- A character the regex class `[\w\-_.]` keeps; equivalently a member
of `[A-Za-z0-9_.-]`. -/
def keptChar (c : Char) : Bool :=
  pyWordChar c || c == '-' || c == '_' || c == '.'

/-- `re.sub(r'[^\w\-_.]', '_', s)`. -/
def sanitize (s : String) : String :=
  String.mk (s.data.map (fun c => if keptChar c then c else '_'))

/-- The f-string shape shared by the three locally created artifacts:
`f"<prefix>{safe_name}_{timestamp}<ext>"`. -/
def artifactFilename (pre number ts ext : String) : String :=
  pre ++ sanitize number ++ "_" ++ ts ++ ext

/-- Line 369: `f"RBI_Checklist_{safe_name}_{...}.txt"`. -/
def checklistFilename (number ts : String) : String :=
  artifactFilename "RBI_Checklist_" number ts ".txt"

/-- Line 105: `f"RBI_Circular_{safe_name}_{...}.pdf"`. -/
def circularPdfFilename (number ts : String) : String :=
  artifactFilename "RBI_Circular_" number ts ".pdf"

/-- Line 115: `f"RBI_Circular_{safe_name}_{...}.html"`. -/
def circularHtmlFilename (number ts : String) : String :=
  artifactFilename "RBI_Circular_" number ts ".html"

end RBI

namespace RBI

/-! ## Artifact resolver (lines 171-256)

The rendered detail page is modelled structurally: the `href` of every
`<a href=...>` element in document order, the `src`-or-`data` attribute
of every `object`/`iframe`/`embed` element (already coalesced, `none`
when both attributes are absent), and the body's inner markup.  Two
external collaborators are oracles: `urllib.parse.urljoin` and the
network outcome of `check_pdf_url_exists` per candidate URL. -/

structure DetailPage where
  anchors : List String
  embeds : List (Option String)
  body : String

structure ResolveEnv where
  join : String → String → String
  valid : String → Bool

/-- `generate_pdf_from_circular_id` (lines 171-177), first pattern. -/
def pdfPattern1 (circular_id : String) : String :=
  "https://rbidocs.rbi.org.in/rdocs/content/pdfs/" ++ circular_id ++ ".pdf"

/-- `generate_pdf_from_circular_id` (lines 171-177), second pattern. -/
def pdfPattern2 (circular_id : String) : String :=
  "https://www.rbi.org.in/Scripts/BS_PressReleaseDisplay.aspx?prid=" ++ circular_id

/-- `generate_pdf_from_circular_id` (lines 171-177), third pattern. -/
def pdfPattern3 (circular_id : String) : String :=
  "https://rbidocs.rbi.org.in/rdocs/circulars/" ++ circular_id ++ ".pdf"

/-- `generate_pdf_from_circular_id` (lines 171-177): the fixed priority
list of synthesized candidate URLs. -/
def generate_pdf_from_circular_id (circular_id : String) : List String :=
  [pdfPattern1 circular_id, pdfPattern2 circular_id, pdfPattern3 circular_id]

/-- `p` dropped through its first occurrence of `pat`: `some` remainder
when `pat` occurs, scanning left to right. -/
def dropThroughSub (pat : List Char) : List Char → Option (List Char)
  | [] => if pat.isEmpty then some [] else none
  | c :: cs =>
    if beginsWithChars (c :: cs) pat then some (List.drop pat.length (c :: cs))
    else dropThroughSub pat cs

/-- The part of `s` before its first occurrence of `pat` (all of `s`
when `pat` is absent; for nonempty `pat`). -/
def takeUntilSub (pat : List Char) : List Char → List Char
  | [] => []
  | c :: cs =>
    if beginsWithChars (c :: cs) pat then [] else c :: takeUntilSub pat cs

/-- Lines 212-213: `circular_url.split('?Id=')[1].split('&')[0]` under
the guard `'?Id=' in circular_url`.  Python's `split` cuts at every
non-overlapping occurrence left to right, so element `[1]` is the
segment between the first occurrence of `'?Id='` and the next one (or
the end), and `[0]` of the second split is the part before the first
`'&'`. -/
def extractCircularId (url : String) : Option String :=
  if strHasSub url "?Id=" then
    match dropThroughSub ("?Id=" : String).data url.data with
    | some rest =>
      some (String.mk (takeUntilSub ['&'] (takeUntilSub ("?Id=" : String).data rest)))
    | none => none
  else none

/-- Loop body of the hyperlink scan (lines 217-222): an `<a>` element's
`href` contributes its joined absolute URL when the raw `href`
lower-cases to a `.pdf` suffix, does not contain the `utkarsh`
watermark marker, and the joined URL validates. -/
def anchorCandidate (env : ResolveEnv) (circular_url href : String) :
    Option String :=
  if strEndsWith (strToLower href) ".pdf" &&
      !strHasSub (strToLower href) "utkarsh" then
    (let full_url := env.join circular_url href
     if env.valid full_url then some full_url else none)
  else none

/-- Loop body of the embed/object/frame scan (lines 224-229): the
coalesced `src`-or-`data` attribute contributes its joined URL when it
contains `.pdf` (lower-cased), does not contain the marker, and the
joined URL validates. -/
def embedCandidate (env : ResolveEnv) (circular_url : String)
    (src : Option String) : Option String :=
  match src with
  | none => none
  | some s =>
    if strHasSub (strToLower s) ".pdf" && !strHasSub (strToLower s) "utkarsh" then
      (let full_url := env.join circular_url s
       if env.valid full_url then some full_url else none)
    else none

/-- The `pdf_links` accumulated by the two scans (lines 216-229), in
scan order: all hyperlink-derived candidates, then all embed-derived
ones. -/
def scanCandidates (env : ResolveEnv) (circular_url : String)
    (page : DetailPage) : List String :=
  page.anchors.filterMap (anchorCandidate env circular_url) ++
    page.embeds.filterMap (embedCandidate env circular_url)

/-- The `for url in potential_urls: ... break` loop (lines 234-237):
first synthesized pattern that validates, if any. -/
def firstValidPattern (env : ResolveEnv) : List String → Option String
  | [] => none
  | u :: us => if env.valid u then some u else firstValidPattern env us

/-- Result of `get_pdf_from_circular_page`: the `(pdf_url,
html_content)` pair collapsed to its three shapes — `(None, None)`,
`(url, None)` and `("HTML_ONLY", content)`. -/
inductive ResolveResult where
  | failed
  | pdf (url : String)
  | htmlOnly (content : String)
deriving DecidableEq

/-- `get_pdf_from_circular_page` (lines 200-256), successful-render
path; driver setup/render failures are handled by the caller's
environment (`.failed`).  Note `list(set(pdf_links))` at line 244
enumerates a CPython set, whose order is unspecified; it is modelled as
`List.dedup`.  Every property proved below about the chosen result only
exercises runs where the candidate list is a singleton, on which all
enumeration orders agree. -/
def get_pdf_from_circular_page (env : ResolveEnv) (circular_url : String)
    (page : DetailPage) : ResolveResult :=
  let circular_id := extractCircularId circular_url
  let links := scanCandidates env circular_url page
  let links :=
    match circular_id with
    | none => links
    | some cid =>
      if !(cid == "") && links.isEmpty then
        match firstValidPattern env (generate_pdf_from_circular_id cid) with
        | some u => links ++ [u]
        | none => links
      else links
  if links.isEmpty then ResolveResult.htmlOnly page.body
  else
    match links.dedup with
    | u :: _ => ResolveResult.pdf u
    | [] => ResolveResult.failed

end RBI

namespace RBI

/-! ## Fetcher (`download_pdf`, lines 287-334)

The streaming transfer is modelled by the byte content that ends up in
the local file and a flag for network success (`raise_for_status` and
transfer errors collapse to `networkOk = false`, the `except` branches
returning `None`).  Filename derivation (URL basename plus timestamp)
is carried as the `localPath` parameter. -/

/-- The PDF magic signature `b'%PDF'`. -/
def pdfMagic : List Nat := [37, 80, 68, 70]

structure DownloadOutcome where
  path : Option String
  warnedBadSignature : Bool
deriving DecidableEq

/-- `download_pdf` (lines 287-334): on network failure return `None`;
otherwise write the body, read back the first 4 bytes (lines 324-327),
warn when they differ from `b'%PDF'`, and return the path in either
case (line 328). -/
def download_pdf (networkOk : Bool) (fileBytes : List Nat)
    (localPath : String) : DownloadOutcome :=
  if networkOk then
    { path := some localPath
    , warnedBadSignature := !(fileBytes.take 4 == pdfMagic) }
  else { path := none, warnedBadSignature := false }

end RBI

namespace RBI

/-! ## Run orchestrator (`main`, lines 560-651)

`main` is modelled as a pure function from an environment of step
outcomes to the final persisted state plus the list of externally
visible actions it performed, in order.  Each outer step that can fail
is a field of the environment; the surrounding `try`/`except` only
catches exceptions the fields already model as `none`/`false`. -/

/-- One row of the circulars table, augmented with the absolute detail
URL by the orchestrator (line 277); only the fields `main` reads are
kept. -/
structure Circular where
  circular_number : String
  date : String
  subject : String
  url : String
deriving DecidableEq

inductive Action where
  | resolveDetail
  | downloadDoc
  | synthesizeDoc
  | authenticate
  | uploadCircular
  | genChecklist
  | uploadChecklist
  | notify
  | writeState
deriving DecidableEq

structure MainEnv where
  /-- Content of `last_circular.txt`, `none` when absent (line 566). -/
  stateFile : Option String
  /-- `get_latest_circular_info()` (line 569): `None` on render/parse
  failure, else the first parsed row with its absolute URL. -/
  latest : Option Circular
  /-- `get_pdf_from_circular_page(...)` outcome (line 585). -/
  resolveResult : ResolveResult
  /-- `download_pdf(pdf_url)` (line 592): local path or `None`. -/
  downloadResult : Option String
  /-- `pdfplumber` text join (lines 595-599): `none` when extraction
  raised, `some` of the joined text (possibly `""`) otherwise. -/
  pdfText : Option String
  /-- `create_pdf_from_html_content(...)` (line 603): local path or
  `None`. -/
  synthesisResult : Option String
  /-- `os.path.exists('credentials.json')` (line 615). -/
  credentialsExist : Bool
  /-- `authenticate_google_apis()` produced usable credentials
  (lines 619-621); an exception inside it is caught by the outer
  handler and likewise ends the run. -/
  authOk : Bool
  /-- `upload_drive` link for the circular document (line 628). -/
  circularLink : Option String
  /-- `generate_checklist_from_text` (line 636). -/
  checklistText : Option String
  /-- `create_checklist_file` (line 638). -/
  checklistFile : Option String
  /-- `upload_drive` link for the checklist (line 640). -/
  checklistLink : Option String
  /-- Whether `send_gmail_api_email` succeeded (line 643); the code
  never reads its return value. -/
  notifyOk : Bool
deriving DecidableEq

structure MainOutcome where
  finalState : Option String
  actions : List Action
deriving DecidableEq

/-- Steps 6 and 7 bookkeeping (lines 634-640): which checklist actions
run, given the truthiness of `circular_content`.  Each inner failure
only skips the remaining checklist steps. -/
def checklistActs (env : MainEnv) (content : Option String) : List Action :=
  if optTruthy content then
    match env.checklistText with
    | none => [Action.genChecklist]
    | some _ =>
      match env.checklistFile with
      | none => [Action.genChecklist]
      | some _ => [Action.genChecklist, Action.uploadChecklist]
  else []

/-- Steps 4-8 (lines 613-648), reached once a local document exists:
missing `credentials.json` returns (line 617), failed authentication
returns (line 621), failed circular upload returns (line 631);
otherwise the checklist steps run best-effort, the notification is
attempted with its result ignored (line 643), and the state is
overwritten with the current identifier (line 646). -/
def mainUploadOnward (env : MainEnv) (current_circular_id : String)
    (content : Option String) (acts : List Action) : MainOutcome :=
  if env.credentialsExist then
    if env.authOk then
      match env.circularLink with
      | none => ⟨env.stateFile, acts ++ [Action.authenticate, Action.uploadCircular]⟩
      | some _ =>
        ⟨set_last_circular_id current_circular_id env.stateFile,
          acts ++ [Action.authenticate, Action.uploadCircular] ++
            checklistActs env content ++ [Action.notify, Action.writeState]⟩
    else ⟨env.stateFile, acts ++ [Action.authenticate]⟩
  else ⟨env.stateFile, acts⟩

/-- `main` (lines 560-651).  Steps 1-3: read the persisted identifier,
fetch the latest circular (abort when none), short-circuit when its
number equals the persisted one (lines 577-580), resolve the detail
page, then either download the PDF (aborting when the download fails)
or synthesize a document from the captured HTML (aborting when the
synthesis fails); a failed resolution aborts (lines 605-607). -/
def main (env : MainEnv) : MainOutcome :=
  match env.latest with
  | none => ⟨env.stateFile, []⟩
  | some latest_circular =>
    if get_last_circular_id env.stateFile == some latest_circular.circular_number then
      ⟨env.stateFile, []⟩
    else
      match env.resolveResult with
      | ResolveResult.failed => ⟨env.stateFile, [Action.resolveDetail]⟩
      | ResolveResult.pdf _ =>
        match env.downloadResult with
        | none => ⟨env.stateFile, [Action.resolveDetail, Action.downloadDoc]⟩
        | some _ =>
          mainUploadOnward env latest_circular.circular_number env.pdfText
            [Action.resolveDetail, Action.downloadDoc]
      | ResolveResult.htmlOnly html_content =>
        match env.synthesisResult with
        | none => ⟨env.stateFile, [Action.resolveDetail, Action.synthesizeDoc]⟩
        | some _ =>
          mainUploadOnward env latest_circular.circular_number (some html_content)
            [Action.resolveDetail, Action.synthesizeDoc]

/-- The condition under which the run reaches steps 7-8: a new circular
was found, a local document was produced, credentials were present,
authentication worked and the circular upload returned a link.  The
notification outcome is absent on purpose: line 643 discards it. -/
def advanceCond (env : MainEnv) : Bool :=
  match env.latest with
  | none => false
  | some latest_circular =>
    !(get_last_circular_id env.stateFile == some latest_circular.circular_number) &&
    (match env.resolveResult with
     | ResolveResult.failed => false
     | ResolveResult.pdf _ => env.downloadResult.isSome
     | ResolveResult.htmlOnly _ => env.synthesisResult.isSome) &&
    env.credentialsExist && env.authOk && env.circularLink.isSome

end RBI

namespace RBI

/-! ## Orchestrator lemmas -/

theorem getLast?_cons_append_pair {α : Type} (a x y : α) (l : List α) :
    (a :: (l ++ [x, y])).getLast? = some y := by
  have h : a :: (l ++ [x, y]) = ((a :: l) ++ [x]) ++ [y] := by simp
  rw [h, List.getLast?_concat]

/-- How `main` treats the persisted state: the state write happens
exactly when the run reaches step 8 (`advanceCond`), it is the last
action of the run, and a run that does not reach it leaves the state
file as it was. -/
theorem main_characterization (env : MainEnv) :
    (Action.writeState ∈ (main env).actions ↔ advanceCond env = true)
    ∧ (advanceCond env = false → (main env).finalState = env.stateFile)
    ∧ (advanceCond env = true →
        (main env).actions.getLast? = some Action.writeState ∧
        Action.notify ∈ (main env).actions ∧
        ∀ c, env.latest = some c → (main env).finalState = some c.circular_number) := by
  obtain ⟨st, lat, res, dl, pt, syn, cred, auth, clink, ct, cf, cl, no⟩ := env
  cases lat with
  | none => simp [main, advanceCond]
  | some c =>
    cases hb : get_last_circular_id st == some c.circular_number <;>
      cases res <;> cases dl <;> cases syn <;> cases cred <;> cases auth <;>
        cases clink <;>
      simp [main, advanceCond, mainUploadOnward, hb, set_last_circular_id,
        getLast?_cons_append_pair]

/-- Lines 577-580: when the latest circular's number equals the
persisted identifier, `main` returns immediately with no further
actions. -/
theorem main_short_circuit (env : MainEnv) (c : Circular)
    (h1 : env.latest = some c)
    (h2 : get_last_circular_id env.stateFile = some c.circular_number) :
    main env = ⟨env.stateFile, []⟩ := by
  unfold main
  rw [h1]
  simp [h2]

/-- Line 643 discards the notification result: no part of the run's
outcome depends on it. -/
theorem main_notifyOk_irrelevant (env : MainEnv) (b : Bool) :
    main { env with notifyOk := b } = main env := by
  cases env
  rfl

end RBI

namespace RBI

/-! ## Claim C1 -/

def envC1 : MainEnv :=
  { stateFile := some "OLD"
  , latest := some ⟨"NEW", "01.01.2025", "Subject", "https://rbi.org.in/Scripts/x?Id=1"⟩
  , resolveResult := ResolveResult.pdf "https://x/y.pdf"
  , downloadResult := some "downloads/y.pdf"
  , pdfText := some "text"
  , synthesisResult := none
  , credentialsExist := true
  , authOk := true
  , circularLink := some "https://drive/link"
  , checklistText := some "chk"
  , checklistFile := some "chk.txt"
  , checklistLink := some "https://drive/chk"
  , notifyOk := false }

/-- C1, counterexample: a run in which discovery, resolution, download,
authentication and the circular upload all succeed but the notification
fails still overwrites the state file with the new identifier — refuting
"for every run in which the notification step fails, the state file is
left unchanged" (`main` never reads the value `send_gmail_api_email`
returns; line 646 runs unconditionally after line 643). -/
theorem C1_counterexample :
    envC1.notifyOk = false ∧ Action.notify ∈ (main envC1).actions ∧
    envC1.stateFile = some "OLD" ∧ (main envC1).finalState = some "NEW" := by
  decide

/-- C1 (amended): the persisted state is written only as the final
action of a run; every failure of an earlier step (index discovery,
artifact resolution, download/synthesis, missing credentials,
authentication, circular upload) returns from `main` without calling
`set_last_circular_id`; once the circular upload has succeeded the
notification is attempted and the state is advanced regardless of the
notification's outcome, which `main` ignores. -/
theorem C1_state_write_discipline (env : MainEnv) :
    (Action.writeState ∈ (main env).actions ↔ advanceCond env = true)
    ∧ (advanceCond env = false → (main env).finalState = env.stateFile)
    ∧ (advanceCond env = true → (main env).actions.getLast? = some Action.writeState)
    ∧ (∀ b, main { env with notifyOk := b } = main env) := by
  obtain ⟨h1, h2, h3⟩ := main_characterization env
  exact ⟨h1, h2, fun h => (h3 h).1, fun b => main_notifyOk_irrelevant env b⟩

def envC1w : MainEnv :=
  { stateFile := some "OLD"
  , latest := some ⟨"NEW", "01.01.2025", "Subject", "u"⟩
  , resolveResult := ResolveResult.pdf "https://x/y.pdf"
  , downloadResult := none
  , pdfText := none
  , synthesisResult := none
  , credentialsExist := true
  , authOk := true
  , circularLink := some "https://drive/link"
  , checklistText := none
  , checklistFile := none
  , checklistLink := none
  , notifyOk := true }

/-- C1 witness: on a concrete run whose download step fails, the run
does not reach the state write and the state file is unchanged. -/
theorem C1_state_write_discipline_witness :
    advanceCond envC1w = false ∧ (main envC1w).finalState = envC1w.stateFile := by
  refine ⟨by decide, ?_⟩
  exact (C1_state_write_discipline envC1w).2.1 (by decide)

end RBI

namespace RBI

/-! ## Claim C6 -/

/-- C6: running the orchestrator again with no new circular published
takes the short-circuit.  If a run wrote the state (so its final state
is the latest circular's number) and the next run sees the same latest
circular, the second run performs no action at all — no artifact
resolution, download, upload or notification — and leaves the state
file unchanged.  (`pythonStrip` fixes every parser-produced number,
since `get_text(strip=True)` output is strip-invariant.) -/
theorem C6_second_run_short_circuits (env : MainEnv) (c : Circular)
    (hlatest : env.latest = some c)
    (hstrip : pythonStrip c.circular_number = c.circular_number)
    (hwrote : Action.writeState ∈ (main env).actions) :
    main { env with stateFile := (main env).finalState } =
      { finalState := (main env).finalState, actions := [] } := by
  obtain ⟨h1, _, h3⟩ := main_characterization env
  have hadv := h1.mp hwrote
  have hfs := (h3 hadv).2.2 c hlatest
  have hsc := main_short_circuit { env with stateFile := (main env).finalState } c
    (by simpa using hlatest)
    (by simp [hfs, get_last_circular_id, hstrip])
  simpa [hfs] using hsc

def envC6 : MainEnv :=
  { stateFile := none
  , latest := some ⟨"NEW", "01.01.2025", "Subject", "u"⟩
  , resolveResult := ResolveResult.htmlOnly "<p>body</p>"
  , downloadResult := none
  , pdfText := none
  , synthesisResult := some "downloads/RBI_Circular_NEW_x.pdf"
  , credentialsExist := true
  , authOk := true
  , circularLink := some "https://drive/link"
  , checklistText := some "chk"
  , checklistFile := some "chk.txt"
  , checklistLink := some "https://drive/chk"
  , notifyOk := true }

/-- C6 witness: a concrete first run that processes an HTML-only
circular end to end, after which the second run short-circuits. -/
theorem C6_second_run_short_circuits_witness :
    Action.writeState ∈ (main envC6).actions ∧
    main { envC6 with stateFile := (main envC6).finalState } =
      { finalState := (main envC6).finalState, actions := [] } := by
  refine ⟨by decide, ?_⟩
  exact C6_second_run_short_circuits envC6 ⟨"NEW", "01.01.2025", "Subject", "u"⟩
    (by decide) (by decide) (by decide)

end RBI

namespace RBI

/-! ## Claim C2 -/

/-- C2: a candidate URL passes validation if and only if the header-only
request came back (no raised exception) with status 200 — the success
status the code tests — and a lower-cased `content-type` header
containing `pdf`; any network error or timeout (the `except` branch,
`none` here) yields `False` with no retry.  In particular 200 +
`application/pdf` is accepted, 200 + `text/html` is rejected, and 404 is
rejected. -/
theorem C2_validation_iff (resp : Option HttpResponse) :
    (check_pdf_url_exists resp = true ↔
      ∃ r, resp = some r ∧ r.status = 200 ∧
        strHasSub (strToLower (r.contentType.getD "")) "pdf" = true)
    ∧ check_pdf_url_exists none = false
    ∧ check_pdf_url_exists (some ⟨200, some "application/pdf"⟩) = true
    ∧ check_pdf_url_exists (some ⟨200, some "text/html"⟩) = false
    ∧ check_pdf_url_exists (some ⟨404, some "application/pdf"⟩) = false := by
  refine ⟨?_, by decide, by decide, by decide, by decide⟩
  cases resp with
  | none => simp [check_pdf_url_exists]
  | some r => simp [check_pdf_url_exists]

end RBI

namespace RBI

/-! ## Claim C3 -/

/-- C3: for every rendered index markup, the parser returns exactly the
summaries of the well-formed rows (at least 4 cells, first cell's link
matching the detail-page pattern), in the order the rows appear;
malformed rows are dropped without shifting that order, and the parser
is a total function (it never fails, returning a possibly empty list
for any input). -/
theorem C3_parser_order (tables : List (List (List Cell))) :
    parse_circulars_table tables =
      ((allRows tables).filter wellFormedRow).map mkSummary ∧
    (parse_circulars_table tables).length =
      ((allRows tables).filter wellFormedRow).length := by
  refine ⟨parse_characterization tables, ?_⟩
  rw [parse_characterization tables, List.length_map]

end RBI

namespace RBI

/-! ## Claim C7 -/

def badRowC7 : List Cell :=
  [ ⟨some ⟨"BS_CircularIndexDisplay.aspx?Id=123", ""⟩, ""⟩
  , ⟨none, "01.01.2025"⟩, ⟨none, "DOR"⟩, ⟨none, "Subject"⟩ ]

/-- C7, counterexample: a well-formed row whose detail link has empty
text is parsed into a summary whose `circular_number` is the empty
string — the code never checks non-emptiness (`link.get_text(strip=True)`
at line 159 is stored as-is), refuting "its `circular_number` field is
non-empty". -/
theorem C7_counterexample :
    ¬ (∀ c ∈ parse_circulars_table [[badRowC7]],
        c.circular_number ≠ "" ∧ strHasSub c.href "Id=" = true) := by
  decide

/-- C7 (amended): every summary the index parser produces has a detail
href containing the detail-page pattern
`BS_CircularIndexDisplay.aspx?Id=`, hence an `Id=` query parameter; its
`circular_number` is the link's stripped text, which the code does not
require to be non-empty. -/
theorem C7_invariant_href (tables : List (List (List Cell)))
    (c : ParsedCircular) (hc : c ∈ parse_circulars_table tables) :
    strHasSub c.href "BS_CircularIndexDisplay.aspx?Id=" = true ∧
    strHasSub c.href "Id=" = true := by
  rw [parse_characterization] at hc
  obtain ⟨row, hrow, rfl⟩ := List.mem_map.mp hc
  have hw := (List.mem_filter.mp hrow).2
  rcases row with _ | ⟨c0, row⟩
  · simp [wellFormedRow] at hw
  rcases row with _ | ⟨c1, row⟩
  · simp [wellFormedRow] at hw
  rcases row with _ | ⟨c2, row⟩
  · simp [wellFormedRow] at hw
  rcases row with _ | ⟨c3, rest⟩
  · simp [wellFormedRow] at hw
  cases ha : c0.anchor with
  | none => simp [wellFormedRow, ha] at hw
  | some link =>
    have hp : strHasSub link.href "BS_CircularIndexDisplay.aspx?Id=" = true := by
      simpa [wellFormedRow, ha] using hw
    have hsplit : ("BS_CircularIndexDisplay.aspx?Id=" : String).data =
        ("BS_CircularIndexDisplay.aspx?" : String).data ++ ("Id=" : String).data := by
      decide
    have h2 : strHasSub link.href "Id=" = true :=
      strHasSub_of_append link.href
        ("BS_CircularIndexDisplay.aspx?" : String).data ("Id=" : String).data
        (by rw [← hsplit]; exact hp)
    simp [mkSummary, ha, hp, h2]

def goodRowC7 : List Cell :=
  [ ⟨some ⟨"BS_CircularIndexDisplay.aspx?Id=123", "DOR.2025.01"⟩, "DOR.2025.01"⟩
  , ⟨none, "01.01.2025"⟩, ⟨none, "DOR"⟩, ⟨none, "Subject"⟩ ]

/-- C7 witness: a concrete parsed summary carries the detail-page
pattern in its href. -/
theorem C7_invariant_href_witness :
    (mkSummary goodRowC7) ∈ parse_circulars_table [[goodRowC7]] ∧
    strHasSub (mkSummary goodRowC7).href "Id=" = true := by
  refine ⟨by decide, ?_⟩
  exact (C7_invariant_href [[goodRowC7]] (mkSummary goodRowC7) (by decide)).2

end RBI

namespace RBI

/-! ## Claim C4 -/

/-- C4: when the hyperlink and embed scans yield no validated candidate
(`pdf_links` empty) and a non-empty identifier is parsed from the
detail URL, the resolver synthesizes exactly 3 candidate URLs in a
fixed priority order, validates them in that order, and accepts the
first that validates; when none validates, or no identifier is
available, it returns an HTML-only result carrying the rendered body
markup of the detail page. -/
theorem C4_identifier_fallback (env : ResolveEnv) (circular_url : String)
    (page : DetailPage)
    (hscan : scanCandidates env circular_url page = []) :
    (∀ cid, extractCircularId circular_url = some cid → cid ≠ "" →
      (generate_pdf_from_circular_id cid).length = 3 ∧
      get_pdf_from_circular_page env circular_url page =
        (if env.valid (pdfPattern1 cid) then ResolveResult.pdf (pdfPattern1 cid)
         else if env.valid (pdfPattern2 cid) then ResolveResult.pdf (pdfPattern2 cid)
         else if env.valid (pdfPattern3 cid) then ResolveResult.pdf (pdfPattern3 cid)
         else ResolveResult.htmlOnly page.body))
    ∧ (extractCircularId circular_url = none →
        get_pdf_from_circular_page env circular_url page =
          ResolveResult.htmlOnly page.body) := by
  constructor
  · intro cid hcid hne
    refine ⟨rfl, ?_⟩
    by_cases h1 : env.valid (pdfPattern1 cid) <;>
      by_cases h2 : env.valid (pdfPattern2 cid) <;>
        by_cases h3 : env.valid (pdfPattern3 cid) <;>
      simp [get_pdf_from_circular_page, hcid, hscan, firstValidPattern,
        generate_pdf_from_circular_id, h1, h2, h3, hne, List.dedup_cons_of_not_mem]
  · intro hnone
    simp [get_pdf_from_circular_page, hnone, hscan]

def envC4 : ResolveEnv :=
  ⟨fun _ href => href, fun u => u == pdfPattern2 "77"⟩

def pageC4 : DetailPage := ⟨[], [], "<p>detail body</p>"⟩

/-- C4 witness: on a detail page with no links or embeds and identifier
`77`, with only the second synthesized pattern validating, the resolver
returns exactly that pattern — exercising the priority order. -/
theorem C4_identifier_fallback_witness :
    scanCandidates envC4 "BS_CircularIndexDisplay.aspx?Id=77" pageC4 = [] ∧
    extractCircularId "BS_CircularIndexDisplay.aspx?Id=77" = some "77" ∧
    get_pdf_from_circular_page envC4 "BS_CircularIndexDisplay.aspx?Id=77" pageC4 =
      ResolveResult.pdf (pdfPattern2 "77") := by
  refine ⟨by decide, by decide, ?_⟩
  have h := ((C4_identifier_fallback envC4 "BS_CircularIndexDisplay.aspx?Id=77"
    pageC4 (by decide)).1 "77" (by decide) (by decide)).2
  rw [h]
  decide

end RBI

namespace RBI

/-! ## Claim C5 -/

def envC5 : ResolveEnv := ⟨fun _ href => href, fun _ => true⟩

def pageC5 : DetailPage := ⟨[], [], "<p>detail body</p>"⟩

/-- C5, counterexample: the identifier-synthesized fallback URLs are
never checked for the watermark marker (lines 231-237 validate the
patterns from `generate_pdf_from_circular_id` directly), so a candidate
URL containing `utkarsh` can be collected and even returned as the
result — refuting exclusion "in all candidate-collection stages". -/
theorem C5_counterexample :
    get_pdf_from_circular_page envC5
        "https://rbi.org.in/Scripts/BS_CircularIndexDisplay.aspx?Id=utkarsh9" pageC5
      = ResolveResult.pdf (pdfPattern1 "utkarsh9") ∧
    strHasSub (pdfPattern1 "utkarsh9") "utkarsh" = true ∧
    envC5.valid (pdfPattern1 "utkarsh9") = true := by
  decide

/-- C5 (amended): in the hyperlink scan and the embed/object/frame scan
a candidate whose raw `href`/`src` attribute contains the disallowed
marker token `utkarsh` (lower-cased) contributes nothing, regardless of
whether it would validate; the identifier-synthesized fallback URLs are
not subject to this exclusion. -/
theorem C5_watermark_exclusion_scans (env : ResolveEnv) (circular_url : String) :
    (∀ href, strHasSub (strToLower href) "utkarsh" = true →
      anchorCandidate env circular_url href = none)
    ∧ (∀ src, strHasSub (strToLower src) "utkarsh" = true →
      embedCandidate env circular_url (some src) = none) := by
  constructor
  · intro href h
    simp [anchorCandidate, h]
  · intro src h
    simp [embedCandidate, h]

/-- C5 witness: a concrete watermarked hyperlink target that would
validate (the oracle accepts everything) is still excluded. -/
theorem C5_watermark_exclusion_scans_witness :
    strHasSub (strToLower "files/Utkarsh_doc.pdf") "utkarsh" = true ∧
    anchorCandidate envC5 "https://x/" "files/Utkarsh_doc.pdf" = none := by
  refine ⟨by decide, ?_⟩
  exact (C5_watermark_exclusion_scans envC5 "https://x/").1
    "files/Utkarsh_doc.pdf" (by decide)

end RBI

namespace RBI

/-! ## Claim C8 -/

theorem sanitize_chars (s : String) :
    ∀ c ∈ (sanitize s).data, keptChar c = true := by
  intro c hc
  simp only [sanitize, List.mem_map] at hc
  obtain ⟨a, _, ha⟩ := hc
  subst ha
  by_cases h : keptChar a = true
  · simp [h]
  · simp [h]
    decide

theorem artifactFilename_inj (pre ext n1 ts1 n2 ts2 : String)
    (hlen : ts1.data.length = ts2.data.length)
    (h : artifactFilename pre n1 ts1 ext = artifactFilename pre n2 ts2 ext) :
    sanitize n1 = sanitize n2 ∧ ts1 = ts2 := by
  have hd : pre.data ++ ((sanitize n1).data ++ (("_" : String).data ++ (ts1.data ++ ext.data))) =
      pre.data ++ ((sanitize n2).data ++ (("_" : String).data ++ (ts2.data ++ ext.data))) := by
    have hdat := congrArg String.data h
    simpa [artifactFilename, String.data_append, List.append_assoc] using hdat
  have h1 := List.append_cancel_left hd
  have h2 := List.append_inj' h1 (by simp [hlen])
  refine ⟨String.ext h2.1, ?_⟩
  have h3 := List.append_cancel_left h2.2
  have h4 := List.append_inj h3 hlen
  exact String.ext h4.1

/-- C8, counterexample: sanitization is not injective — the distinct
circular numbers `A/B` and `A_B` yield the same sanitized name `A_B`,
hence identical artifact filenames under the same timestamp.  The
resulting filename therefore does not uniquely encode the circular
number. -/
theorem C8_counterexample :
    checklistFilename "A/B" "20250101_120000" =
      checklistFilename "A_B" "20250101_120000"
    ∧ ("A/B" : String) ≠ "A_B" := by
  decide

/-- C8 (amended): the sanitized name replaces every character outside
`[A-Za-z0-9_.-]` (Python `\w` taken over its ASCII range) with `_`, so
each of the three locally created artifact filenames contains no
character outside that set whenever the timestamp does; the filename
uniquely encodes the sanitized circular number and the timestamp (for
equal-length timestamps, as produced by the fixed `%Y%m%d_%H%M%S`
format), but distinct circular numbers may collide after sanitization. -/
theorem C8_filenames (number ts : String)
    (hts : ∀ c ∈ ts.data, keptChar c = true) :
    (∀ c ∈ (checklistFilename number ts).data, keptChar c = true)
    ∧ (∀ c ∈ (circularPdfFilename number ts).data, keptChar c = true)
    ∧ (∀ c ∈ (circularHtmlFilename number ts).data, keptChar c = true)
    ∧ (∀ number2 ts2, ts2.data.length = ts.data.length →
        checklistFilename number ts = checklistFilename number2 ts2 →
        sanitize number = sanitize number2 ∧ ts = ts2) := by
  refine ⟨?_, ?_, ?_, ?_⟩
  · intro c hc
    simp only [checklistFilename, artifactFilename, String.data_append,
      List.mem_append] at hc
    rcases hc with ((((hc | hc) | hc) | hc) | hc)
    · revert c hc
      decide
    · exact sanitize_chars number c hc
    · revert c hc
      decide
    · exact hts c hc
    · revert c hc
      decide
  · intro c hc
    simp only [circularPdfFilename, artifactFilename, String.data_append,
      List.mem_append] at hc
    rcases hc with ((((hc | hc) | hc) | hc) | hc)
    · revert c hc
      decide
    · exact sanitize_chars number c hc
    · revert c hc
      decide
    · exact hts c hc
    · revert c hc
      decide
  · intro c hc
    simp only [circularHtmlFilename, artifactFilename, String.data_append,
      List.mem_append] at hc
    rcases hc with ((((hc | hc) | hc) | hc) | hc)
    · revert c hc
      decide
    · exact sanitize_chars number c hc
    · revert c hc
      decide
    · exact hts c hc
    · revert c hc
      decide
  · intro number2 ts2 hlen h
    have := artifactFilename_inj "RBI_Checklist_" ".txt" number ts number2 ts2
      hlen.symm h
    exact this

/-- C8 witness: the spec's example circular number `DOR.CO.45/2024-25`
with a fixed timestamp yields a filename inside the safe character
set. -/
theorem C8_filenames_witness :
    (∀ c ∈ ("20250101_120000" : String).data, keptChar c = true) ∧
    (∀ c ∈ (checklistFilename "DOR.CO.45/2024-25" "20250101_120000").data,
      keptChar c = true) := by
  refine ⟨by decide, ?_⟩
  exact (C8_filenames "DOR.CO.45/2024-25" "20250101_120000" (by decide)).1

end RBI

namespace RBI

/-! ## Claim C9 -/

/-- C9: after writing the downloaded file the fetcher reads back the
leading 4 bytes (lines 324-327); it warns exactly when they differ from
the PDF magic signature `b'%PDF'`, and in both cases the local file
path is still returned (line 328) — the mismatch is never fatal.  A
file beginning with `%PDF` passes silently, one beginning with any
other bytes only logs the warning. -/
theorem C9_signature_check (fileBytes : List Nat) (localPath : String) :
    (download_pdf true fileBytes localPath).path = some localPath
    ∧ ((download_pdf true fileBytes localPath).warnedBadSignature = false ↔
        fileBytes.take 4 = pdfMagic)
    ∧ (download_pdf true [37, 80, 68, 70, 1, 2] localPath).warnedBadSignature = false
    ∧ (download_pdf true [40, 80, 68, 70, 1, 2] localPath).warnedBadSignature = true := by
  refine ⟨rfl, ?_, by simp [download_pdf, pdfMagic], by simp [download_pdf, pdfMagic]⟩
  simp [download_pdf]

end RBI

namespace RBI

/-! ## Claim C10 -/

/-- C10: state-store round trip.  When the state file is absent the
load returns `None`; after a save of `cid` a load returns `cid` with
surrounding whitespace stripped — hence load after save is the identity
exactly on identifiers with no surrounding whitespace, and an
identifier such as `" A "` does not round-trip unchanged. -/
theorem C10_state_roundtrip :
    get_last_circular_id none = none
    ∧ (∀ cid st, get_last_circular_id (set_last_circular_id cid st) =
        some (pythonStrip cid))
    ∧ (∀ cid st, pythonStrip cid = cid →
        get_last_circular_id (set_last_circular_id cid st) = some cid)
    ∧ get_last_circular_id (set_last_circular_id " A " none) = some "A"
    ∧ pythonStrip " A " ≠ " A " := by
  refine ⟨rfl, fun cid st => rfl,
    fun cid st h => by simp [get_last_circular_id, set_last_circular_id, h],
    by decide, by decide⟩

/-- C10 witness: a whitespace-free identifier round-trips exactly. -/
theorem C10_state_roundtrip_witness :
    pythonStrip "DOR.2025.01" = "DOR.2025.01" ∧
    get_last_circular_id (set_last_circular_id "DOR.2025.01" none) =
      some "DOR.2025.01" := by
  refine ⟨by decide, ?_⟩
  exact C10_state_roundtrip.2.2.1 "DOR.2025.01" none (by decide)

end RBI
